import Mathlib

/-
Shallow embedding of `pyeto/fao.py` (FAO-56 evapotranspiration library) in
Lean 4, together with theorems settling the specification claims about it.

Python floats are modelled as real numbers; functions that can raise return
`Except Err _`.  The validator module `pyeto/_check.py` is not part of the
provided sources, so its validators are modelled from the specification and
are marked as such in their doc comments.  Everything else is transcribed
from `pyeto/fao.py`.
-/

/-- Error kinds of the spec's error taxonomy: `DomainError` for an input
outside the valid numeric range of a formula, `InvalidArgument` for an
unrecognised categorical input (Python raises `ValueError` in both cases). -/
inductive Err where
  | domainError : Err
  | invalidArgument : Err
deriving DecidableEq

noncomputable section

/-- Solar constant [MJ m-2 min-1], module-level constant of `fao.py`. -/
def SOLAR_CONSTANT : ℝ := 0.0820

/-- Modelled from the spec: the latitude validator of the missing `_check`
module fails with `DomainError` if the value falls outside `[-π/2, π/2]`. -/
def _check_latitude_in_radians (latitude : ℝ) : Except Err Unit :=
  if -(Real.pi / 2) ≤ latitude ∧ latitude ≤ Real.pi / 2 then Except.ok ()
  else Except.error Err.domainError

/-- Modelled from the spec: the solar-declination validator of the missing
`_check` module fails with `DomainError` if the value falls outside
`[-0.4093, 0.4093]`. -/
def _check_solar_declination_in_radians (sd : ℝ) : Except Err Unit :=
  if -0.4093 ≤ sd ∧ sd ≤ 0.4093 then Except.ok ()
  else Except.error Err.domainError

/-- Modelled from the spec: the day-of-year validator of the missing
`_check` module fails with `DomainError` if the integer is outside
`[1, 366]`. -/
def _check_doy (doy : ℤ) : Except Err Unit :=
  if 1 ≤ doy ∧ doy ≤ 366 then Except.ok ()
  else Except.error Err.domainError

/-- Modelled from the spec: the day-hours validator of the missing `_check`
module fails with `DomainError` if the value lies outside `[0, 24]`.  (The
original also takes the argument's name for the error message; that string
plays no role in the semantics and is omitted.) -/
def _check_day_hours (hours : ℝ) : Except Err Unit :=
  if 0 ≤ hours ∧ hours ≤ 24 then Except.ok ()
  else Except.error Err.domainError

/-- `es_from_t(t)` from `fao.py`: saturation vapour pressure [kPa] from air
temperature, `0.6108 * exp((17.27 * t) / (t + 237.3))`. -/
def es_from_t (t : ℝ) : ℝ :=
  0.6108 * Real.exp ((17.27 * t) / (t + 237.3))

/-- `ea_from_tmin(tmin)` from `fao.py`: actual vapour pressure [kPa] from
minimum temperature, `0.611 * exp((17.27 * tmin) / (tmin + 237.3))`. -/
def ea_from_tmin (tmin : ℝ) : ℝ :=
  0.611 * Real.exp ((17.27 * tmin) / (tmin + 237.3))

/-- `mean_es(tmin, tmax)` from `fao.py`: mean saturation vapour pressure,
`(es_from_t(tmin) + es_from_t(tmax)) / 2.0`. -/
def mean_es (tmin tmax : ℝ) : ℝ :=
  (es_from_t tmin + es_from_t tmax) / 2.0

/-- `monthly_soil_heat_flux(t_month_prev, t_month_next)` from `fao.py`:
`0.07 * (t_month_next - t_month_prev)`. -/
def monthly_soil_heat_flux (t_month_prev t_month_next : ℝ) : ℝ :=
  0.07 * (t_month_next - t_month_prev)

/-- `monthly_soil_heat_flux2(t_month_prev, t_month_cur)` from `fao.py`:
`0.14 * (t_month_cur - t_month_prev)`. -/
def monthly_soil_heat_flux2 (t_month_prev t_month_cur : ℝ) : ℝ :=
  0.14 * (t_month_cur - t_month_prev)

/-- Python's binary `**` on floats: for a non-negative base it is the real
power; for a negative base with a fractional exponent Python 3 silently
converts to complex and returns the principal complex power (it does not
raise).  The result is therefore modelled in `ℂ`. -/
def pyPow (x y : ℝ) : ℂ :=
  if 0 ≤ x then ((x ^ y : ℝ) : ℂ) else (x : ℂ) ^ (y : ℂ)

/-- `hargreaves(tmin, tmax, tmean, Ra)` from `fao.py`:
`0.0023 * (tmean + 17.8) * (tmax - tmin) ** 0.5 * Ra`, with `**` modelled by
`pyPow` (so the value is complex when `tmax < tmin`). -/
def hargreaves (tmin tmax tmean Ra : ℝ) : ℂ :=
  (0.0023 : ℂ) * ((tmean : ℂ) + 17.8) * pyPow (tmax - tmin) 0.5 * (Ra : ℂ)

/-- `et_radiation(latitude, sd, sha, irl)` from `fao.py`.  Note: the source
passes `latitude` — not `sd` — to the solar-declination validator
(`_check_solar_declination_in_radians(latitude)` on line 301), and this
embedding reproduces that call exactly. -/
def et_radiation (latitude sd sha irl : ℝ) : Except Err ℝ :=
  match _check_latitude_in_radians latitude with
  | Except.error e => Except.error e
  | Except.ok _ =>
    match _check_solar_declination_in_radians latitude with
    | Except.error e => Except.error e
    | Except.ok _ =>
      Except.ok ((24.0 * 60.0) / Real.pi * SOLAR_CONSTANT * irl *
        (sha * Real.sin latitude * Real.sin sd +
          Real.cos latitude * Real.cos sd * Real.sin sha))

/-- `inv_rel_dist_earth_sun(doy)` from `fao.py`: validates `doy`, then
returns `1 + 0.033 * cos(2π/365 * doy)`. -/
def inv_rel_dist_earth_sun (doy : ℤ) : Except Err ℝ :=
  match _check_doy doy with
  | Except.error e => Except.error e
  | Except.ok _ =>
    Except.ok (1 + 0.033 * Real.cos ((2.0 * Real.pi / 365.0) * (doy : ℝ)))

/-- `sunset_hour_angle(latitude, sd)` from `fao.py`: validates both angles,
computes `-tan(latitude) * tan(sd)`, clamps it into `[-1, 1]`, and returns
its arccosine. -/
def sunset_hour_angle (latitude sd : ℝ) : Except Err ℝ :=
  match _check_latitude_in_radians latitude with
  | Except.error e => Except.error e
  | Except.ok _ =>
    match _check_solar_declination_in_radians sd with
    | Except.error e => Except.error e
    | Except.ok _ =>
      Except.ok (Real.arccos (min (max (-Real.tan latitude * Real.tan sd) (-1.0)) 1.0))

/-- Modelled from the spec: `solar_radiation_from_sun_hours` as the spec
describes it.  The source's two validation lines are syntactically malformed
(`_check day_hours(sun_hours, ...)` — a space inside the callee name and a
reference to the undefined name `sun_hours`), so the validation behaviour is
taken from the spec: both hour arguments must lie in `[0, 24]`.  The final
formula line is transcribed from the source:
`(0.5 * sunshine_hours / daylight_hours + 0.25) * et_rad`. -/
def solar_radiation_from_sun_hours (daylight_hours sunshine_hours et_rad : ℝ) :
    Except Err ℝ :=
  match _check_day_hours sunshine_hours with
  | Except.error e => Except.error e
  | Except.ok _ =>
    match _check_day_hours daylight_hours with
    | Except.error e => Except.error e
    | Except.ok _ =>
      Except.ok ((0.5 * sunshine_hours / daylight_hours + 0.25) * et_rad)

/-- `solar_radiation_from_t(et_rad, cs_rad, tmin, tmax, coastal)` from
`fao.py`: adjustment coefficient `0.19` if coastal else `0.16`;
`min(adj * sqrt(tmax - tmin) * et_rad, cs_rad)`.  Python's `math.sqrt`
raises for a negative argument, modelled by the error branch. -/
def solar_radiation_from_t (et_rad cs_rad tmin tmax : ℝ) (coastal : Bool) :
    Except Err ℝ :=
  let adj : ℝ := if coastal then 0.19 else 0.16
  if tmax - tmin < 0 then Except.error Err.domainError
  else Except.ok (min (adj * Real.sqrt (tmax - tmin) * et_rad) cs_rad)

/-- `psychrometric_const_of_psychrometer(psychrometer, atmos_pres)` from
`fao.py`: coefficient `0.000662` for type 1, `0.000800` for type 2,
`0.001200` for type 3, times the pressure; `ValueError` otherwise. -/
def psychrometric_const_of_psychrometer (psychrometer : ℤ) (atmos_pres : ℝ) :
    Except Err ℝ :=
  if psychrometer = 1 then Except.ok (0.000662 * atmos_pres)
  else if psychrometer = 2 then Except.ok (0.000800 * atmos_pres)
  else if psychrometer = 3 then Except.ok (0.001200 * atmos_pres)
  else Except.error Err.invalidArgument

end

/-- Claim C9: for every temperature `t`, `mean_es t t = es_from_t t` — the
mean saturation vapour pressure of two identical temperatures is the
saturation vapour pressure at that temperature. -/
theorem claim_C9 (t : ℝ) : mean_es t t = es_from_t t := by
  unfold mean_es
  ring

/-- Claim C10: for every pair of monthly mean temperatures `a` and `b`,
`monthly_soil_heat_flux2 a b = 2 * monthly_soil_heat_flux a b` — the
no-next-month estimator is exactly twice the with-next-month estimator
(`0.14 = 2 * 0.07`). -/
theorem claim_C10 (a b : ℝ) :
    monthly_soil_heat_flux2 a b = 2 * monthly_soil_heat_flux a b := by
  unfold monthly_soil_heat_flux monthly_soil_heat_flux2
  ring

/-- Claim C3, counterexample: at `t = 0` the claimed identity
`ea_from_tmin t = es_from_t t` fails — `es_from_t 0 = 0.6108` is strictly
below `ea_from_tmin 0 = 0.611`, because `ea_from_tmin` uses the FAO
equation-48 coefficient `0.611` while `es_from_t` uses `0.6108`. -/
theorem claim_C3_counterexample : es_from_t 0 < ea_from_tmin 0 := by
  unfold es_from_t ea_from_tmin
  norm_num

/-- Claim C3, amended: for every temperature `t`, `ea_from_tmin t` equals
`(0.611 / 0.6108) * es_from_t t`, i.e. it is the saturation vapour pressure
formula at `t` but with leading coefficient `0.611` (FAO equation 48)
instead of `0.6108`. -/
theorem claim_C3 (t : ℝ) : ea_from_tmin t = (0.611 / 0.6108) * es_from_t t := by
  unfold ea_from_tmin es_from_t
  ring

/-- Claim C7: `psychrometric_const_of_psychrometer` returns `0.000662 * p`
for type 1, `0.000800 * p` for type 2, `0.001200 * p` for type 3, and fails
with `InvalidArgument` exactly when the type is not in `{1, 2, 3}`. -/
theorem claim_C7 (t : ℤ) (p : ℝ) :
    psychrometric_const_of_psychrometer 1 p = Except.ok (0.000662 * p) ∧
    psychrometric_const_of_psychrometer 2 p = Except.ok (0.000800 * p) ∧
    psychrometric_const_of_psychrometer 3 p = Except.ok (0.001200 * p) ∧
    (psychrometric_const_of_psychrometer t p = Except.error Err.invalidArgument ↔
      t ∉ ({1, 2, 3} : Set ℤ)) := by
  refine ⟨by simp [psychrometric_const_of_psychrometer],
    by norm_num [psychrometric_const_of_psychrometer],
    by norm_num [psychrometric_const_of_psychrometer], ?_⟩
  by_cases h1 : t = 1
  · simp [psychrometric_const_of_psychrometer, h1]
  · by_cases h2 : t = 2
    · simp [psychrometric_const_of_psychrometer, h1, h2]
    · by_cases h3 : t = 3
      · simp [psychrometric_const_of_psychrometer, h1, h2, h3]
      · simp [psychrometric_const_of_psychrometer, h1, h2, h3]

/-- Claim C4 (on the spec-modelled function, since the source's validation
lines do not parse): `solar_radiation_from_sun_hours` fails with
`DomainError` whenever `daylight_hours` or `sunshine_hours` lies outside
`[0, 24]`, and otherwise returns
`(0.5 * sunshine_hours / daylight_hours + 0.25) * et_rad`. -/
theorem claim_C4 (d s e : ℝ) :
    solar_radiation_from_sun_hours d s e =
      if (0 ≤ s ∧ s ≤ 24) ∧ (0 ≤ d ∧ d ≤ 24) then
        Except.ok ((0.5 * s / d + 0.25) * e)
      else Except.error Err.domainError := by
  unfold solar_radiation_from_sun_hours _check_day_hours
  by_cases h1 : 0 ≤ s ∧ s ≤ 24
  · by_cases h2 : 0 ≤ d ∧ d ≤ 24
    · simp [h1, h2]
    · simp [h1, h2]
  · simp [h1]

/-- Claim C6: for all radiation and temperature inputs with `tmin ≤ tmax`
and either value of the coastal flag, `solar_radiation_from_t` returns
`min (adj * sqrt (tmax - tmin) * et_rad) cs_rad` with `adj = 0.19` if
coastal else `0.16`; in particular the result never exceeds `cs_rad`. -/
theorem claim_C6 (et_rad cs_rad tmin tmax : ℝ) (coastal : Bool)
    (h : tmin ≤ tmax) :
    solar_radiation_from_t et_rad cs_rad tmin tmax coastal =
      Except.ok
        (min ((if coastal then (0.19 : ℝ) else 0.16) *
          Real.sqrt (tmax - tmin) * et_rad) cs_rad) ∧
    min ((if coastal then (0.19 : ℝ) else 0.16) *
      Real.sqrt (tmax - tmin) * et_rad) cs_rad ≤ cs_rad := by
  constructor
  · unfold solar_radiation_from_t
    rw [if_neg (by linarith)]
  · exact min_le_right _ _

/-- Claim C6, witness: the spec's end-to-end scenario
`solar_radiation_from_t 25 20 10 25 false` — the hypothesis `10 ≤ 25` holds
and the result is the clamped value, which does not exceed `20`. -/
theorem claim_C6_witness :
    (10 : ℝ) ≤ 25 ∧
    (solar_radiation_from_t 25 20 10 25 false =
      Except.ok
        (min ((if false then (0.19 : ℝ) else 0.16) *
          Real.sqrt (25 - 10) * 25) 20) ∧
    min ((if false then (0.19 : ℝ) else 0.16) *
      Real.sqrt (25 - 10) * 25) 20 ≤ 20) :=
  ⟨by norm_num, claim_C6 25 20 10 25 false (by norm_num)⟩

/-- Claim C8: for every integer `doy` in `[1, 366]`,
`inv_rel_dist_earth_sun doy` succeeds and its value lies in
`[0.967, 1.033]`, because the cosine factor lies in `[-1, 1]`. -/
theorem claim_C8 (doy : ℤ) (h1 : 1 ≤ doy) (h2 : doy ≤ 366) :
    ∃ v, inv_rel_dist_earth_sun doy = Except.ok v ∧
      0.967 ≤ v ∧ v ≤ 1.033 := by
  refine ⟨1 + 0.033 * Real.cos ((2.0 * Real.pi / 365.0) * (doy : ℝ)), ?_, ?_, ?_⟩
  · unfold inv_rel_dist_earth_sun _check_doy
    rw [if_pos ⟨h1, h2⟩]
  · have hc := Real.neg_one_le_cos ((2.0 * Real.pi / 365.0) * (doy : ℝ))
    nlinarith
  · have hc := Real.cos_le_one ((2.0 * Real.pi / 365.0) * (doy : ℝ))
    nlinarith

/-- Claim C8, witness: at `doy = 100` both bounds on the day of year hold
and the inverse relative earth-sun distance lies in `[0.967, 1.033]`. -/
theorem claim_C8_witness :
    ((1 : ℤ) ≤ 100 ∧ (100 : ℤ) ≤ 366) ∧
    ∃ v, inv_rel_dist_earth_sun 100 = Except.ok v ∧
      0.967 ≤ v ∧ v ≤ 1.033 :=
  ⟨by decide, claim_C8 100 (by decide) (by decide)⟩

/-- Claim C5: for every latitude in `[-π/2, π/2]` and solar declination in
`[-0.4093, 0.4093]`, `sunset_hour_angle` succeeds and returns a value in
`[0, π]` — the clamp of `-tan(latitude) * tan(sd)` into `[-1, 1]` keeps the
arccosine inside its domain even for extreme tangent products. -/
theorem claim_C5 (latitude sd : ℝ)
    (h1 : -(Real.pi / 2) ≤ latitude) (h2 : latitude ≤ Real.pi / 2)
    (h3 : -0.4093 ≤ sd) (h4 : sd ≤ 0.4093) :
    ∃ v, sunset_hour_angle latitude sd = Except.ok v ∧
      0 ≤ v ∧ v ≤ Real.pi := by
  refine ⟨Real.arccos (min (max (-Real.tan latitude * Real.tan sd) (-1.0)) 1.0),
    ?_, Real.arccos_nonneg _, Real.arccos_le_pi _⟩
  unfold sunset_hour_angle _check_latitude_in_radians
    _check_solar_declination_in_radians
  rw [if_pos ⟨h1, h2⟩, if_pos ⟨h3, h4⟩]

/-- Claim C5, witness: at latitude `0` and declination `0` all four range
hypotheses hold and the sunset hour angle is an `Except.ok` value in
`[0, π]`. -/
theorem claim_C5_witness :
    (-(Real.pi / 2) ≤ (0 : ℝ) ∧ (0 : ℝ) ≤ Real.pi / 2 ∧
      (-0.4093 : ℝ) ≤ 0 ∧ (0 : ℝ) ≤ 0.4093) ∧
    ∃ v, sunset_hour_angle 0 0 = Except.ok v ∧ 0 ≤ v ∧ v ≤ Real.pi :=
  ⟨⟨neg_nonpos.mpr (by positivity), by positivity, by norm_num, by norm_num⟩,
    claim_C5 0 0 (neg_nonpos.mpr (by positivity)) (by positivity)
      (by norm_num) (by norm_num)⟩

/-- Claim C2 is false of the code: at latitude `0` (inside `[-π/2, π/2]`)
and solar declination `1` (outside `[-0.4093, 0.4093]`),
`et_radiation 0 1 1 1` returns a value instead of failing — the source
passes `latitude`, not `sd`, to the solar-declination validator, so the
declination argument is never checked. -/
theorem claim_C2 : ∃ v, et_radiation 0 1 1 1 = Except.ok v := by
  refine ⟨(24.0 * 60.0) / Real.pi * SOLAR_CONSTANT * 1 *
    (1 * Real.sin 0 * Real.sin 1 + Real.cos 0 * Real.cos 1 * Real.sin 1), ?_⟩
  unfold et_radiation _check_latitude_in_radians
    _check_solar_declination_in_radians
  rw [if_pos ⟨neg_nonpos.mpr (by positivity), by positivity⟩,
    if_pos ⟨by norm_num, by norm_num⟩]

/-- Claim C1 is false of the code: at the spec's own failing input
`hargreaves 26 20 23 15` (so `tmax < tmin`), the function does not fail —
Python's `(tmax - tmin) ** 0.5` silently converts the negative base to
complex, and the returned value has strictly positive imaginary part
(`0.0023 * 40.8 * 15 * sqrt 6 * i`). -/
theorem claim_C1 : 0 < (hargreaves 26 20 23 15).im := by
  have hz : pyPow (20 - 26) 0.5 = (((6 : ℝ) ^ (0.5 : ℝ) : ℝ) : ℂ) * Complex.I := by
    unfold pyPow
    rw [if_neg (by norm_num)]
    rw [show ((20 - 26 : ℝ) : ℂ) = ((-6 : ℝ) : ℂ) by norm_num]
    rw [Complex.cpow_ofReal]
    rw [Complex.abs_ofReal]
    rw [Complex.arg_ofReal_of_neg (by norm_num)]
    rw [show (Real.pi * (0.5 : ℝ)) = Real.pi / 2 by ring]
    rw [Real.cos_pi_div_two, Real.sin_pi_div_two]
    norm_num
  have hval : hargreaves 26 20 23 15 =
      ((0.0023 * (23 + 17.8) * ((6 : ℝ) ^ (0.5 : ℝ)) * 15 : ℝ) : ℂ) * Complex.I := by
    unfold hargreaves
    rw [hz]
    push_cast
    ring_nf
    norm_num
    ring
  rw [hval]
  have h6 : (0 : ℝ) < (6 : ℝ) ^ (0.5 : ℝ) := Real.rpow_pos_of_pos (by norm_num) _
  simp only [Complex.mul_im, Complex.ofReal_re, Complex.ofReal_im,
    Complex.I_re, Complex.I_im, mul_zero, zero_mul, mul_one, add_zero, zero_add]
  positivity
